import Mathlib

/-!
Shallow embedding of the in-memory CRUD resource stores of the
fastapi-course repository: the "bands" app (src/main.py, src/schemas.py)
and the "books" app (src/notes/src/lesson-02/main.py with its seed data in
src/db.py). Stores are Lean lists of records; route handlers become pure
functions over an explicit store, returning `Except StoreError` where the
Python raises `HTTPException` or pydantic raises a validation error.
-/

set_option autoImplicit false

namespace FastapiCourse

/-- Error taxonomy of the spec: `NotFound` models HTTP 404, `ValidationError`
models a pydantic / FastAPI 422 validation failure, `InternalError` models an
unhandled Python exception (e.g. the `IndexError` that `bands_data[-1]` raises
on an empty list). -/
inductive StoreError where
  | NotFound
  | ValidationError
  | InternalError
deriving DecidableEq, Repr

/-! ## Bands data model (src/schemas.py) -/

/-- `GenreChoices` enum of src/schemas.py: members carry the canonical
title-cased string values. -/
inductive GenreChoices where
  | rock
  | electronic
  | metal
  | hip_hop
deriving DecidableEq, Repr

/-- The string value of each `GenreChoices` member, as in src/schemas.py. -/
def GenreChoices.value : GenreChoices → String
  | .rock => "Rock"
  | .electronic => "Electronic"
  | .metal => "Metal"
  | .hip_hop => "Hip-Hop"

/-- Pydantic enum coercion: a raw string is accepted iff it equals the value
of some `GenreChoices` member. -/
def GenreChoices.ofValue (s : String) : Option GenreChoices :=
  if s = "Rock" then some .rock
  else if s = "Electronic" then some .electronic
  else if s = "Metal" then some .metal
  else if s = "Hip-Hop" then some .hip_hop
  else none

/-- `GenreURLChoices` enum of src/schemas.py: lower-case URL values. -/
inductive GenreURLChoices where
  | rock
  | electronic
  | metal
  | hip_hop
deriving DecidableEq, Repr

/-- The string value of each `GenreURLChoices` member, as in src/schemas.py. -/
def GenreURLChoices.value : GenreURLChoices → String
  | .rock => "rock"
  | .electronic => "electronic"
  | .metal => "metal"
  | .hip_hop => "hip-hop"

/-- `Album` model of src/schemas.py; the release date is kept as its wire
string, its calendar structure plays no role in any claim. -/
structure Album where
  title : String
  release_date : String
deriving DecidableEq, Repr

/-- `BandWithID` model of src/schemas.py: a stored band record. -/
structure BandWithID where
  id : Int
  name : String
  genre : GenreChoices
  albums : List Album
deriving DecidableEq, Repr

/-- `BandCreate` after validation: the fields a client supplies on create
(id is absent by construction of the schema). -/
structure BandCreate where
  name : String
  genre : GenreChoices
  albums : List Album
deriving DecidableEq, Repr

/-- A raw create request body before validation: the genre is still an
arbitrary string. -/
structure RawBandCreate where
  name : String
  genre : String
  albums : List Album
deriving DecidableEq, Repr

/-- One step of Python `str.title()` over a character list: an alphabetic
character is uppercased when the previous character was not alphabetic and
lowercased otherwise; other characters pass through.  The Boolean argument
records whether the previous character was alphabetic. (Python defines a word
as a maximal run of cased characters; for the ASCII strings at issue,
cased = alphabetic.) -/
def titleAux : Bool → List Char → List Char
  | _, [] => []
  | prevAlpha, c :: rest =>
    (if c.isAlpha then (if prevAlpha then c.toLower else c.toUpper) else c)
      :: titleAux c.isAlpha rest

/-- Python `str.title()` on a string, via `titleAux`. -/
def pythonTitle (s : String) : String :=
  ⟨titleAux false s.data⟩

/-- The `BandCreate.title_case_genre` validator (src/schemas.py lines 32-35)
followed by pydantic enum validation: the raw genre string is title-cased
first, then must equal the value of some `GenreChoices` member; otherwise the
request fails with a validation error. -/
def validateBandCreate (r : RawBandCreate) : Except StoreError BandCreate :=
  match GenreChoices.ofValue (pythonTitle r.genre) with
  | some g => .ok ⟨r.name, g, r.albums⟩
  | none => .error .ValidationError

/-! ## Bands route handlers (src/main.py) -/

/-- Substring test `subAt needle hay`: does `needle` occur at the head of
`hay`? -/
def subAt : List Char → List Char → Bool
  | [], _ => true
  | _ :: _, [] => false
  | a :: as, b :: bs => a == b && subAt as bs

/-- Python `needle in hay` for strings, as a scan over all suffixes. -/
def hasSub (needle : List Char) : List Char → Bool
  | [] => needle.isEmpty
  | c :: rest => subAt needle (c :: rest) || hasSub needle rest

/-- `get_bands` handler body (src/main.py lines 19-34): start from the whole
store, filter by exact (case-normalized) genre when a genre criterion is
given, then by case-insensitive substring on the name when `q` is given.
Per Python truthiness, an empty `q` imposes no constraint. -/
def get_bands (store : List BandWithID) (genre : Option GenreURLChoices)
    (q : Option String) : List BandWithID :=
  let l₁ := match genre with
    | none => store
    | some g => store.filter (fun b => b.genre.value.toLower == g.value)
  match q with
  | none => l₁
  | some qs =>
    if qs.isEmpty then l₁
    else l₁.filter (fun b => hasSub qs.toLower.data b.name.toLower.data)

/-- `list_all` of spec section 4.1: all records in insertion order.  The bands
app realizes it as `GET /bands` with no query parameters. -/
def list_all (store : List BandWithID) : List BandWithID :=
  store

/-- The `GET /bands` endpoint including the framework validation gate.
Modelled from the spec: the declaration
`q: Annotated[str | None, Query(max_length=10)]` (src/main.py line 22) makes
FastAPI reject any request whose `q` is longer than 10 characters with a 422
validation error before the handler body runs; that enforcement lives in the
framework, not in this repository. -/
def get_bands_endpoint (store : List BandWithID) (genre : Option GenreURLChoices)
    (q : Option String) : Except StoreError (List BandWithID) :=
  match q with
  | some qs =>
    if 10 < qs.length then .error .ValidationError
    else .ok (get_bands store genre (some qs))
  | none => .ok (get_bands store genre none)

/-- `create_band` handler body (src/main.py lines 37-43): the new id is
`bands_data[-1]['id'] + 1`; on an empty store the Python indexing raises, so
the result is `none`.  The new record is appended. -/
def create_band (store : List BandWithID) (input : BandCreate) :
    Option (BandWithID × List BandWithID) :=
  match store.getLast? with
  | none => none
  | some last =>
    let nb : BandWithID := ⟨last.id + 1, input.name, input.genre, input.albums⟩
    some (nb, store ++ [nb])

/-- The `POST /bands` endpoint: pydantic validation of the body, then the
handler body; the `IndexError` on an empty store surfaces as an internal
(500-class) failure, not a `ValidationError`. -/
def create_band_endpoint (store : List BandWithID) (r : RawBandCreate) :
    Except StoreError (BandWithID × List BandWithID) :=
  match validateBandCreate r with
  | .error e => .error e
  | .ok input =>
    match create_band store input with
    | some res => .ok res
    | none => .error .InternalError

/-- `get_band` handler (src/main.py lines 46-56): first record whose id
equals the argument, else 404. -/
def get_band (store : List BandWithID) (band_id : Int) :
    Except StoreError BandWithID :=
  match store.find? (fun b => b.id == band_id) with
  | some b => .ok b
  | none => .error .NotFound

/-- The seed `bands_data` of src/main.py. -/
def bands_data : List BandWithID :=
  [ ⟨1, "The Kinks", .rock, []⟩,
    ⟨2, "FX Twin", .electronic, []⟩,
    ⟨3, "Black Sabbath", .metal, [⟨"Master of Reality", "1971-07-21"⟩]⟩,
    ⟨4, "Run-DMC", .hip_hop, []⟩ ]

/-! ## Books data model

The lesson-02 schema module itself is not under src/; its `BookCreate` and
`BookUpdate` models are modelled from the spec (section 3: a fixed set of
required scalar fields) and from their uses in src/db.py (constructor calls
with exactly the fields below) and src/notes/src/lesson-02/main.py (the
update handler assigns exactly title, author, publisher, page_count,
language). -/

/-- `BookCreate`: the stored book record; note the client supplies the `id`
field on create in lesson-02. -/
structure BookCreate where
  id : Int
  title : String
  author : String
  publisher : String
  published_date : String
  page_count : Int
  language : String
deriving DecidableEq, Repr

/-- `BookUpdate`: the update request body; exactly the five fields the update
handler reads. -/
structure BookUpdate where
  title : String
  author : String
  publisher : String
  page_count : Int
  language : String
deriving DecidableEq, Repr

/-! ## Books route handlers (src/notes/src/lesson-02/main.py) -/

/-- `get_all_books` handler (lines 13-15): returns the whole store. -/
def get_all_books (store : List BookCreate) : List BookCreate :=
  store

/-- `create_book` handler (lines 18-23): appends the client-supplied record
verbatim and returns it; no id is generated. -/
def create_book (store : List BookCreate) (book : BookCreate) :
    BookCreate × List BookCreate :=
  (book, store ++ [book])

/-- `get_book` handler (lines 26-33): linear scan for the first record whose
id equals the argument, 404 otherwise. -/
def get_book (store : List BookCreate) (book_id : Int) :
    Except StoreError BookCreate :=
  match store.find? (fun b => b.id == book_id) with
  | some b => .ok b
  | none => .error .NotFound

/-- The field assignments of the update handler (lines 40-44): every field of
`BookUpdate` replaces the stored one; `id` and `published_date` are not
assigned. -/
def applyUpdate (b : BookCreate) (d : BookUpdate) : BookCreate :=
  { b with
    title := d.title
    author := d.author
    publisher := d.publisher
    page_count := d.page_count
    language := d.language }

/-- `update_book` handler (lines 36-49): scan for the first record with the
given id, mutate its five fields in place and return it; 404 when no record
matches.  The result pairs the response with the store after the call. -/
def update_book (book_id : Int) (d : BookUpdate) :
    List BookCreate → Except StoreError BookCreate × List BookCreate
  | [] => (.error .NotFound, [])
  | b :: rest =>
    if b.id = book_id then
      (.ok (applyUpdate b d), applyUpdate b d :: rest)
    else
      ((update_book book_id d rest).1, b :: (update_book book_id d rest).2)

/-- `delete_book` handler (lines 52-59): `sample_books.remove(book)` removes
the first element equal to the first record whose id matches; since any
earlier equal element would itself have matched first, this is exactly the
first record whose id matches.  404 when no record matches. -/
def delete_book (book_id : Int) :
    List BookCreate → Except StoreError Unit × List BookCreate
  | [] => (.error .NotFound, [])
  | b :: rest =>
    if b.id = book_id then
      (.ok (), rest)
    else
      ((delete_book book_id rest).1, b :: (delete_book book_id rest).2)

/-- Id uniqueness for a book store: the list of ids has no duplicate. -/
def bookIdsNodup (store : List BookCreate) : Prop :=
  (store.map BookCreate.id).Nodup

/-- Id uniqueness for a band store. -/
def bandIdsNodup (store : List BandWithID) : Prop :=
  (store.map BandWithID.id).Nodup

/-- The band store property actually maintained by the bands app: the last
record carries the maximal id. -/
def lastIdMax (store : List BandWithID) : Prop :=
  ∀ last, store.getLast? = some last → ∀ b ∈ store, b.id ≤ last.id

instance : DecidablePred bookIdsNodup := fun store =>
  inferInstanceAs (Decidable (store.map BookCreate.id).Nodup)

instance : DecidablePred bandIdsNodup := fun store =>
  inferInstanceAs (Decidable (store.map BandWithID.id).Nodup)

instance {ε α : Type} [DecidableEq ε] [DecidableEq α] : DecidableEq (Except ε α)
  | .ok a, .ok b =>
    if h : a = b then .isTrue (by rw [h]) else .isFalse (by simp [h])
  | .ok _, .error _ => .isFalse (by simp)
  | .error _, .ok _ => .isFalse (by simp)
  | .error e, .error f =>
    if h : e = f then .isTrue (by rw [h]) else .isFalse (by simp [h])

/-- A concrete book record, one entry of the src/db.py seed. -/
def bookA : BookCreate :=
  ⟨1, "Foundation", "Isaac Asimov", "Gnome Press", "1951", 255, "English"⟩

/-- A valid client create request carrying the already-taken id 1: lesson-02
accepts the id from the request body. -/
def bookDup : BookCreate :=
  ⟨1, "Foundation II", "Nobody", "No Press", "2020", 100, "English"⟩

/-- A valid client create request carrying id 5. -/
def bookFive : BookCreate :=
  ⟨5, "Le Petit Prince", "Antoine de Saint", "Reynal and Hitchcock", "1943-04-06",
    96, "French"⟩

/-! ## Helper lemmas -/

lemma get_book_cons_of_ne (b : BookCreate) (s : List BookCreate) (i : Int)
    (h : b.id ≠ i) : get_book (b :: s) i = get_book s i := by
  have hb : (b.id == i) = false := by simp [h]
  simp [get_book, List.find?_cons, hb]

lemma get_book_not_found (s : List BookCreate) (i : Int)
    (h : ∀ b ∈ s, b.id ≠ i) : get_book s i = .error .NotFound := by
  induction s with
  | nil => rfl
  | cons b rest ih =>
    rw [get_book_cons_of_ne b rest i (h b (List.mem_cons_self b rest))]
    exact ih fun x hx => h x (List.mem_cons_of_mem b hx)

lemma update_book_not_found (i : Int) (d : BookUpdate) (s : List BookCreate)
    (h : ∀ b ∈ s, b.id ≠ i) : update_book i d s = (.error .NotFound, s) := by
  induction s with
  | nil => rfl
  | cons b rest ih =>
    have hb : b.id ≠ i := h b (List.mem_cons_self b rest)
    have hr := ih fun x hx => h x (List.mem_cons_of_mem b hx)
    simp [update_book, hb, hr]

lemma delete_book_not_found (i : Int) (s : List BookCreate)
    (h : ∀ b ∈ s, b.id ≠ i) : delete_book i s = (.error .NotFound, s) := by
  induction s with
  | nil => rfl
  | cons b rest ih =>
    have hb : b.id ≠ i := h b (List.mem_cons_self b rest)
    have hr := ih fun x hx => h x (List.mem_cons_of_mem b hx)
    simp [delete_book, hb, hr]

lemma delete_book_sublist (i : Int) (s : List BookCreate) :
    (delete_book i s).2.Sublist s := by
  induction s with
  | nil => exact List.Sublist.refl []
  | cons b rest ih =>
    by_cases hb : b.id = i
    · simp only [delete_book, if_pos hb]
      exact List.sublist_cons_self b rest
    · simpa [delete_book, hb] using ih.cons₂ b

lemma update_book_ids (i : Int) (d : BookUpdate) (s : List BookCreate) :
    (update_book i d s).2.map BookCreate.id = s.map BookCreate.id := by
  induction s with
  | nil => rfl
  | cons b rest ih =>
    by_cases hb : b.id = i
    · simp [update_book, hb, applyUpdate]
    · simp [update_book, hb, ih]

lemma get_book_delete_nodup (i : Int) (s : List BookCreate)
    (h : bookIdsNodup s) : get_book (delete_book i s).2 i = .error .NotFound := by
  induction s with
  | nil => rfl
  | cons b rest ih =>
    have hh : b.id ∉ rest.map BookCreate.id ∧ bookIdsNodup rest := by
      simpa [bookIdsNodup] using h
    by_cases hb : b.id = i
    · have hrest : ∀ x ∈ rest, x.id ≠ i := by
        intro x hx hxi
        exact hh.1 (by rw [hb, ← hxi]; exact List.mem_map_of_mem BookCreate.id hx)
      simpa [delete_book, hb] using get_book_not_found rest i hrest
    · have : (delete_book i (b :: rest)).2 = b :: (delete_book i rest).2 := by
        simp [delete_book, hb]
      rw [this, get_book_cons_of_ne b _ i hb]
      exact ih hh.2

lemma create_band_eq (store : List BandWithID) (input : BandCreate)
    (last : BandWithID) (h : store.getLast? = some last) :
    create_band store input =
      some (⟨last.id + 1, input.name, input.genre, input.albums⟩,
        store ++ [⟨last.id + 1, input.name, input.genre, input.albums⟩]) := by
  simp [create_band, h]

lemma lastIdMax_bands_data : lastIdMax bands_data := by
  intro last hl
  have h4 : bands_data.getLast? = some ⟨4, "Run-DMC", .hip_hop, []⟩ := by decide
  rw [h4] at hl
  cases hl
  intro b hb
  fin_cases hb <;> decide

lemma create_band_append_nodup (store : List BandWithID) (input : BandCreate)
    (last : BandWithID) (hl : store.getLast? = some last)
    (hnd : bandIdsNodup store) (hmax : lastIdMax store) :
    bandIdsNodup (store ++ [⟨last.id + 1, input.name, input.genre, input.albums⟩]) := by
  have hle : ∀ b ∈ store, b.id ≤ last.id := hmax last hl
  simp only [bandIdsNodup, List.map_append, List.map_cons, List.map_nil,
    List.nodup_append]
  refine ⟨hnd, List.nodup_singleton _, ?_⟩
  intro x hx
  obtain ⟨b, hb, rfl⟩ := List.mem_map.1 hx
  intro hmem
  simp only [List.mem_singleton] at hmem
  have := hle b hb
  omega

lemma create_band_append_lastIdMax (store : List BandWithID) (input : BandCreate)
    (last : BandWithID) (hl : store.getLast? = some last) (hmax : lastIdMax store) :
    lastIdMax (store ++ [⟨last.id + 1, input.name, input.genre, input.albums⟩]) := by
  intro last₂ hl₂ b hb
  rw [List.getLast?_concat] at hl₂
  cases hl₂
  rcases List.mem_append.1 hb with hb | hb
  · have := hmax last hl b hb
    simp only []
    omega
  · simp only [List.mem_singleton] at hb
    subst hb
    exact le_refl _

/-- A concrete update request body. -/
def updSample : BookUpdate :=
  ⟨"New Title", "New Author", "New Pub", 300, "German"⟩

/-! ## Claims -/

/-- C3: for every id not present in the store, get_by_id, update_by_id and
delete_by_id each signal NotFound and leave the store exactly unchanged. -/
theorem absent_id_ops_not_found_store_unchanged (store : List BookCreate)
    (i : Int) (d : BookUpdate) (h : ∀ b ∈ store, b.id ≠ i) :
    get_book store i = .error .NotFound ∧
    update_book i d store = (.error .NotFound, store) ∧
    delete_book i store = (.error .NotFound, store) :=
  ⟨get_book_not_found store i h, update_book_not_found i d store h,
    delete_book_not_found i store h⟩

/-- Witness for C3 at the one-record store and the absent id 99. -/
theorem absent_id_ops_not_found_store_unchanged_witness :
    (∀ b ∈ [bookA], b.id ≠ (99 : Int)) ∧
    (get_book [bookA] 99 = .error .NotFound ∧
     update_book 99 updSample [bookA] = (.error .NotFound, [bookA]) ∧
     delete_book 99 [bookA] = (.error .NotFound, [bookA])) :=
  ⟨by decide,
    absent_id_ops_not_found_store_unchanged [bookA] 99 updSample (by decide)⟩

/-- C5: enum-field validation on create title-cases the input before the
membership check: genre "rock" is accepted and stored as the canonical form
"Rock"; genre "jazz" title-cases to "Jazz", which is outside the allowed set
{Rock, Electronic, Metal, Hip-Hop}, so create signals ValidationError. -/
theorem create_titlecases_genre_before_membership :
    pythonTitle "rock" = "Rock" ∧
    validateBandCreate ⟨"Test", "rock", []⟩ =
      .ok ⟨"Test", GenreChoices.rock, []⟩ ∧
    GenreChoices.rock.value = "Rock" ∧
    create_band_endpoint bands_data ⟨"Test", "rock", []⟩ =
      .ok (⟨5, "Test", GenreChoices.rock, []⟩,
        bands_data ++ [⟨5, "Test", GenreChoices.rock, []⟩]) ∧
    pythonTitle "jazz" = "Jazz" ∧
    GenreChoices.ofValue "Jazz" = none ∧
    create_band_endpoint bands_data ⟨"Test", "jazz", []⟩ =
      .error .ValidationError :=
  ⟨rfl, rfl, rfl, rfl, rfl, rfl, rfl⟩

/-- C9: filtering with no criteria supplied returns exactly the same sequence
of records, in the same order, as list_all. -/
theorem filter_no_criteria_eq_list_all (store : List BandWithID) :
    get_bands store none none = list_all store :=
  rfl

/-- C10: the band list/filter endpoint constrains q to at most 10 characters;
every longer q is rejected by validation before any filtering occurs. -/
theorem long_q_rejected_before_filtering (store : List BandWithID)
    (genre : Option GenreURLChoices) (q : String) (hq : 10 < q.length) :
    get_bands_endpoint store genre (some q) = .error .ValidationError := by
  simp [get_bands_endpoint, hq]

/-- Witness for C10 at an 11-character q. -/
theorem long_q_rejected_before_filtering_witness :
    10 < ("abcdefghijk" : String).length ∧
    get_bands_endpoint bands_data none (some "abcdefghijk") =
      .error .ValidationError :=
  ⟨by decide,
    long_q_rejected_before_filtering bands_data none "abcdefghijk" (by decide)⟩

/-- C1 counterexample: in the books app the client supplies the id, so
creating bookDup (id 1) over the store [bookA] (which already holds id 1)
returns a record whose id is not strictly greater than every id present
before the call. -/
theorem create_id_not_greater_cex :
    bookA ∈ [bookA] ∧
    ¬ bookA.id < (create_book [bookA] bookDup).1.id := by
  decide

/-- C1 amended: create always appends exactly one record and returns it; the
strictly-greater-id property holds for the band store whenever the last
record carries the maximal id (true in every state the bands app reaches),
while the book store's id is client-supplied and need not exceed existing
ids. -/
theorem create_appends_one_record :
    (∀ (store : List BookCreate) (book : BookCreate),
        (create_book store book).2.length = store.length + 1 ∧
        (create_book store book).1 = book) ∧
    (∀ (store : List BandWithID) (input : BandCreate) (last : BandWithID),
        store.getLast? = some last → lastIdMax store →
        ∃ nb st₁, create_band store input = some (nb, st₁) ∧
          st₁.length = store.length + 1 ∧ ∀ b ∈ store, b.id < nb.id) := by
  constructor
  · intro store book
    exact ⟨by simp [create_book], rfl⟩
  · intro store input last hl hmax
    refine ⟨_, _, create_band_eq store input last hl, by simp, ?_⟩
    intro b hb
    have := hmax last hl b hb
    simp only [BandWithID.mk.injEq] at *
    omega

/-- Witness for C1 at the seed bands store. -/
theorem create_appends_one_record_witness :
    ∃ nb st₁,
      create_band bands_data ⟨"Test", GenreChoices.rock, []⟩ = some (nb, st₁) ∧
      st₁.length = bands_data.length + 1 ∧ ∀ b ∈ bands_data, b.id < nb.id :=
  create_appends_one_record.2 bands_data ⟨"Test", GenreChoices.rock, []⟩
    ⟨4, "Run-DMC", GenreChoices.hip_hop, []⟩ (by decide) lastIdMax_bands_data

/-- C2 counterexample: on the empty book store, create stores the client's
id 5 (not 1); on the empty band store, create fails with an IndexError
instead of assigning id 1. -/
theorem create_id_not_max_plus_one_cex :
    (create_book [] bookFive).1.id = bookFive.id ∧
    (create_book [] bookFive).1.id ≠ 1 ∧
    create_band [] ⟨"Test", GenreChoices.rock, []⟩ = none := by
  decide

/-- C2 amended: the band create assigns last-record id + 1 (which equals
max + 1 exactly when the last record's id is maximal) and fails on the empty
store; the book create takes the id verbatim from the client's input. -/
theorem create_id_last_plus_one_or_client :
    (∀ input, create_band [] input = none) ∧
    (∀ (store : List BandWithID) (input : BandCreate) (last : BandWithID),
        store.getLast? = some last →
        ∃ st₁, create_band store input =
          some (⟨last.id + 1, input.name, input.genre, input.albums⟩, st₁)) ∧
    (∀ (store : List BookCreate) (book : BookCreate),
        (create_book store book).1.id = book.id) := by
  refine ⟨fun _ => rfl, ?_, fun _ _ => rfl⟩
  intro store input last hl
  exact ⟨_, create_band_eq store input last hl⟩

/-- Witness for C2 at the seed bands store: the assigned id is 4 + 1. -/
theorem create_id_last_plus_one_or_client_witness :
    ∃ st₁, create_band bands_data ⟨"Test", GenreChoices.rock, []⟩ =
      some (⟨(4 : Int) + 1, "Test", GenreChoices.rock, []⟩, st₁) :=
  create_id_last_plus_one_or_client.2.1 bands_data ⟨"Test", GenreChoices.rock, []⟩
    ⟨4, "Run-DMC", GenreChoices.hip_hop, []⟩ (by decide)

/-- C4 counterexample: starting from the pairwise-distinct store [bookA],
the books create appends a client record with the already-taken id 1, so id
uniqueness is not preserved by create. -/
theorem create_book_breaks_id_uniqueness_cex :
    bookIdsNodup [bookA] ∧
    ¬ bookIdsNodup (create_book [bookA] bookDup).2 := by
  constructor
  · decide
  · intro h
    exact absurd h (by decide)

/-- C4 amended: the book store's update and delete preserve id uniqueness,
and the band store's create preserves it (together with the property that the
last record carries the maximal id) from any state with that property; the
book store's create appends the client record verbatim and can duplicate an
existing id. -/
theorem ops_preserve_id_uniqueness :
    (∀ (store : List BookCreate) (i : Int), bookIdsNodup store →
        bookIdsNodup (delete_book i store).2) ∧
    (∀ (store : List BookCreate) (i : Int) (d : BookUpdate), bookIdsNodup store →
        bookIdsNodup (update_book i d store).2) ∧
    (∀ (store : List BandWithID) (input : BandCreate) (last : BandWithID),
        bandIdsNodup store → lastIdMax store → store.getLast? = some last →
        ∃ nb st₁, create_band store input = some (nb, st₁) ∧
          bandIdsNodup st₁ ∧ lastIdMax st₁) := by
  refine ⟨?_, ?_, ?_⟩
  · intro store i h
    have h₂ : (store.map BookCreate.id).Nodup := h
    exact h₂.sublist ((delete_book_sublist i store).map BookCreate.id)
  · intro store i d h
    have h₂ : (store.map BookCreate.id).Nodup := h
    show ((update_book i d store).2.map BookCreate.id).Nodup
    rw [update_book_ids]
    exact h₂
  · intro store input last hnd hmax hl
    exact ⟨_, _, create_band_eq store input last hl,
      create_band_append_nodup store input last hl hnd hmax,
      create_band_append_lastIdMax store input last hl hmax⟩

/-- Witness for C4: delete preserves uniqueness on a concrete store. -/
theorem ops_preserve_id_uniqueness_witness :
    bookIdsNodup [bookA, bookFive] ∧
    bookIdsNodup (delete_book 1 [bookA, bookFive]).2 :=
  ⟨by decide, ops_preserve_id_uniqueness.1 [bookA, bookFive] 1 (by decide)⟩

/-- C6: for an id present in the store (decomposed as the first record with
that id, preceded by non-matching records), update_by_id replaces every
mutable field of the matched record with the input value, preserves the
record's id (and its published_date, absent from the update schema), and
leaves every other record in the store unchanged. -/
theorem update_replaces_mutable_fields (pre post : List BookCreate)
    (old : BookCreate) (i : Int) (d : BookUpdate)
    (hpre : ∀ x ∈ pre, x.id ≠ i) (hold : old.id = i) :
    update_book i d (pre ++ old :: post) =
      (.ok (applyUpdate old d), pre ++ applyUpdate old d :: post) ∧
    (applyUpdate old d).id = old.id ∧
    (applyUpdate old d).published_date = old.published_date ∧
    (applyUpdate old d).title = d.title ∧
    (applyUpdate old d).author = d.author ∧
    (applyUpdate old d).publisher = d.publisher ∧
    (applyUpdate old d).page_count = d.page_count ∧
    (applyUpdate old d).language = d.language := by
  refine ⟨?_, rfl, rfl, rfl, rfl, rfl, rfl, rfl⟩
  induction pre with
  | nil => simp [update_book, hold]
  | cons x xs ih =>
    have hx : x.id ≠ i := hpre x (List.mem_cons_self x xs)
    have hxs := ih fun y hy => hpre y (List.mem_cons_of_mem x hy)
    simp [update_book, hx, hxs]

/-- Witness for C6: updating id 1 in a two-record store rewrites the matched
record and keeps the other record intact. -/
theorem update_replaces_mutable_fields_witness :
    update_book 1 updSample ([bookFive] ++ bookA :: []) =
      (.ok (applyUpdate bookA updSample),
        [bookFive] ++ applyUpdate bookA updSample :: []) :=
  (update_replaces_mutable_fields [bookFive] [] bookA 1 updSample
    (by decide) (by decide)).1

lemma get_band_cons_of_ne (b : BandWithID) (s : List BandWithID) (i : Int)
    (h : b.id ≠ i) : get_band (b :: s) i = get_band s i := by
  have hb : (b.id == i) = false := by simp [h]
  simp [get_band, List.find?_cons, hb]

lemma get_band_mem_nodup (store : List BandWithID) (r : BandWithID)
    (hnd : bandIdsNodup store) (hr : r ∈ store) : get_band store r.id = .ok r := by
  induction store with
  | nil => exact absurd hr (List.not_mem_nil r)
  | cons b rest ih =>
    have hh : b.id ∉ rest.map BandWithID.id ∧ bandIdsNodup rest := by
      simpa [bandIdsNodup] using hnd
    rcases List.mem_cons.1 hr with rfl | hr₂
    · simp [get_band, List.find?_cons]
    · have hb : b.id ≠ r.id := fun he =>
        hh.1 (he ▸ List.mem_map_of_mem BandWithID.id hr₂)
      rw [get_band_cons_of_ne b rest r.id hb]
      exact ih hh.2 hr₂

lemma get_book_mem_nodup (store : List BookCreate) (r : BookCreate)
    (hnd : bookIdsNodup store) (hr : r ∈ store) : get_book store r.id = .ok r := by
  induction store with
  | nil => exact absurd hr (List.not_mem_nil r)
  | cons b rest ih =>
    have hh : b.id ∉ rest.map BookCreate.id ∧ bookIdsNodup rest := by
      simpa [bookIdsNodup] using hnd
    rcases List.mem_cons.1 hr with rfl | hr₂
    · simp [get_book, List.find?_cons]
    · have hb : b.id ≠ r.id := fun he =>
        hh.1 (he ▸ List.mem_map_of_mem BookCreate.id hr₂)
      rw [get_book_cons_of_ne b rest r.id hb]
      exact ih hh.2 hr₂

/-- C7 counterexample: after creating bookDup (same id as bookA) the store
holds two records with id 1; get_by_id on bookDup's id returns the first
match bookA, not bookDup, so the claim fails for r = bookDup. -/
theorem get_by_id_duplicate_cex :
    bookDup ∈ (create_book [bookA] bookDup).2 ∧
    get_book (create_book [bookA] bookDup).2 bookDup.id = .ok bookA ∧
    get_book (create_book [bookA] bookDup).2 bookDup.id ≠ .ok bookDup := by
  refine ⟨by decide, by decide, ?_⟩
  intro h
  exact absurd h (by decide)

/-- C7 amended: whenever the store's ids are pairwise distinct, get_by_id of
a stored record's id returns that record (for both apps); unconditionally,
get_by_id performs a linear scan returning the first record whose id equals
the argument. -/
theorem get_by_id_returns_record :
    (∀ (store : List BookCreate) (r : BookCreate), bookIdsNodup store →
        r ∈ store → get_book store r.id = .ok r) ∧
    (∀ (store : List BandWithID) (r : BandWithID), bandIdsNodup store →
        r ∈ store → get_band store r.id = .ok r) ∧
    (∀ (pre post : List BookCreate) (r : BookCreate) (i : Int),
        (∀ x ∈ pre, x.id ≠ i) → r.id = i →
        get_book (pre ++ r :: post) i = .ok r) := by
  refine ⟨get_book_mem_nodup, get_band_mem_nodup, ?_⟩
  intro pre post r i hpre hr
  induction pre with
  | nil =>
    have hb : (r.id == i) = true := by simp [hr]
    simp [get_book, List.find?_cons, hb]
  | cons x xs ih =>
    have hx : x.id ≠ i := hpre x (List.mem_cons_self x xs)
    rw [List.cons_append, get_book_cons_of_ne x (xs ++ r :: post) i hx]
    exact ih fun y hy => hpre y (List.mem_cons_of_mem x hy)

/-- Witness for C7: looking up each seed book in a distinct-id store. -/
theorem get_by_id_returns_record_witness :
    bookIdsNodup [bookA, bookFive] ∧ bookFive ∈ [bookA, bookFive] ∧
    get_book [bookA, bookFive] bookFive.id = .ok bookFive :=
  ⟨by decide, by decide,
    get_by_id_returns_record.1 [bookA, bookFive] bookFive (by decide) (by decide)⟩

/-- C8 counterexample: with two records sharing id 1, delete_by_id(1) removes
only the first, so the following get_by_id(1) returns the survivor instead of
signalling NotFound. -/
theorem delete_then_get_duplicate_cex :
    get_book (delete_book 1 [bookA, bookDup]).2 1 = .ok bookDup ∧
    get_book (delete_book 1 [bookA, bookDup]).2 1 ≠ .error .NotFound := by
  refine ⟨by decide, ?_⟩
  intro h
  exact absurd h (by decide)

/-- C8 amended: whenever the store's ids are pairwise distinct, delete_by_id
of an id followed by get_by_id of the same id signals NotFound, whether or
not the delete itself succeeded. -/
theorem delete_then_get_not_found (store : List BookCreate) (i : Int)
    (h : bookIdsNodup store) :
    get_book (delete_book i store).2 i = .error .NotFound :=
  get_book_delete_nodup i store h

/-- Witness for C8: a successful delete at id 1 and a failed delete at the
absent id 7, each followed by a NotFound lookup. -/
theorem delete_then_get_not_found_witness :
    bookIdsNodup [bookA, bookFive] ∧
    get_book (delete_book 1 [bookA, bookFive]).2 1 = .error .NotFound ∧
    get_book (delete_book 7 [bookA, bookFive]).2 7 = .error .NotFound :=
  ⟨by decide, delete_then_get_not_found [bookA, bookFive] 1 (by decide),
    delete_then_get_not_found [bookA, bookFive] 7 (by decide)⟩

end FastapiCourse
